import Mathlib

/-!
# Verification of the authentication/authorization core of dcyfr-ai-web

Shallow embedding of:
* `src/lib/errors.ts` — the error taxonomy (`AppError` and its five subclasses);
* `src/lib/auth.ts` — password hashing and JWT issuance/verification
  (the external `bcryptjs` and `jsonwebtoken` libraries are modelled from their
  documented contracts, with the per-call random salt and the clock passed
  explicitly as parameters);
* `src/lib/utils.ts` `slugify` — reconstructed from the identical
  `generateSlug` in `examples/database-operations.ts` (lowercase, collapse runs
  of non-alphanumerics to a single `-`, trim a leading/trailing `-`), pinned by
  `tests/lib/utils.test.ts`;
* `src/db/schema.ts` — the `users` and `posts` rows;
* `src/services/user-service.ts` and `src/services/post-service.ts` — the CRUD
  services, with the SQLite store modelled as lists of rows plus autoincrement
  counters.  Each mutating operation returns the outcome (`Except`) together
  with the store after the call; throwing is modelled as returning `.error`
  with the unchanged store, mirroring throw-before-write in the source.
-/

namespace DcyfrAiWeb

/-! ## Error taxonomy (`src/lib/errors.ts`) -/

/-- `AppError` from `src/lib/errors.ts`: HTTP-style status code, message and a
machine-readable code string (`details` is only used by `ValidationError`,
which no service operation constructs, so it is not carried here). -/
structure AppError where
  statusCode : Nat
  message : String
  code : Option String
  deriving Repr, DecidableEq

/-- `NotFoundError` (404, `NOT_FOUND`). -/
def NotFoundError (resource : String) (id : Option Nat := none) : AppError :=
  { statusCode := 404
    message :=
      match id with
      | some i => resource ++ " with id " ++ toString i ++ " not found"
      | none => resource ++ " not found"
    code := some "NOT_FOUND" }

/-- `UnauthorizedError` (401, `UNAUTHORIZED`). -/
def UnauthorizedError (message : String := "Authentication required") : AppError :=
  { statusCode := 401, message := message, code := some "UNAUTHORIZED" }

/-- `ForbiddenError` (403, `FORBIDDEN`). -/
def ForbiddenError (message : String := "Insufficient permissions") : AppError :=
  { statusCode := 403, message := message, code := some "FORBIDDEN" }

/-- `ConflictError` (409, `CONFLICT`). -/
def ConflictError (message : String) : AppError :=
  { statusCode := 409, message := message, code := some "CONFLICT" }

/-! ## Credential hasher (`src/lib/auth.ts` wrapping `bcryptjs`) -/

/-- Modelled from the spec: the `bcryptjs` digest string (the library is not
part of this repository).  A bcrypt digest embeds the cost factor and the
per-call random salt next to the derived key; verification re-derives the key
from the digest's own salt and compares. -/
structure BcryptDigest where
  cost : Nat
  salt : Nat
  key : String
  deriving Repr, DecidableEq

/-- Modelled from the spec: bcrypt's key derivation, idealised as an injective
function of the salt and the plaintext (one-wayness is not needed by any
claim). -/
def bcryptKDF (salt : Nat) (password : String) : String :=
  toString salt ++ ":" ++ password

/-- Modelled from the spec: `bcryptjs.hashSync(password, cost)`.  The salt the
library draws at random inside the call is passed explicitly. -/
def hashSync (password : String) (cost : Nat) (salt : Nat) : BcryptDigest :=
  { cost := cost, salt := salt, key := bcryptKDF salt password }

/-- Modelled from the spec: `bcryptjs.compareSync` — re-derive with the salt
embedded in the digest and compare. -/
def compareSync (password : String) (digest : BcryptDigest) : Bool :=
  bcryptKDF digest.salt password == digest.key

/-- `hashPassword` from `src/lib/auth.ts`: `hashSync(password, 10)`.  The
`salt` parameter is the randomness the library draws during the call. -/
def hashPassword (salt : Nat) (password : String) : BcryptDigest :=
  hashSync password 10 salt

/-- `verifyPassword` from `src/lib/auth.ts`: `compareSync(password, hash)`. -/
def verifyPassword (password : String) (hash : BcryptDigest) : Bool :=
  compareSync password hash

/-! ## Token service (`src/lib/auth.ts` wrapping `jsonwebtoken`) -/

/-- `JwtPayload` from `src/lib/auth.ts`. -/
structure JwtPayload where
  userId : Nat
  email : String
  role : String
  deriving Repr, DecidableEq

/-- Modelled from the spec: a token as `jsonwebtoken` produces and parses it —
either a well-formed signed blob (payload, `exp` claim in epoch seconds, and
an HMAC signature modelled by recording the signing secret), or an unparsable
string. -/
inductive Jwt where
  | signed (payload : JwtPayload) (exp : Nat) (secret : String)
  | malformed (raw : String)
  deriving Repr, DecidableEq

/-- Modelled from the spec: the errors `jsonwebtoken.verify` throws.  They are
library error classes, distinguishable from each other, and are not `AppError`
values. -/
inductive JwtError where
  | jsonWebTokenError (message : String)
  | tokenExpiredError (expiredAt : Nat)
  deriving Repr, DecidableEq

/-- Modelled from the spec: `jsonwebtoken.sign(payload, secret, {expiresIn})`
stamps `exp = now + expiresIn` and signs with the secret. -/
def jwtSign (payload : JwtPayload) (secret : String) (now expiresIn : Nat) : Jwt :=
  .signed payload (now + expiresIn) secret

/-- Modelled from the spec: `jsonwebtoken.verify(token, secret)` — parse,
check the signature, then check expiry; throwing is modelled as `.error`. -/
def jwtVerify (token : Jwt) (secret : String) (now : Nat) : Except JwtError JwtPayload :=
  match token with
  | .malformed _ => .error (.jsonWebTokenError "jwt malformed")
  | .signed payload exp tokenSecret =>
    if tokenSecret = secret then
      if exp ≤ now then .error (.tokenExpiredError exp) else .ok payload
    else .error (.jsonWebTokenError "invalid signature")

/-- `generateToken` from `src/lib/auth.ts`: `sign(payload, JWT_SECRET,
{expiresIn: JWT_EXPIRES_IN})`.  The process-wide secret, the clock and the
configured lifetime (default `7d` = 604800 s) are parameters. -/
def generateToken (secret : String) (now expiresIn : Nat) (payload : JwtPayload) : Jwt :=
  jwtSign payload secret now expiresIn

/-- `verifyToken` from `src/lib/auth.ts`: a direct passthrough to
`verify(token, JWT_SECRET)`; it installs no error translation of its own. -/
def verifyToken (secret : String) (now : Nat) (token : Jwt) : Except JwtError JwtPayload :=
  jwtVerify token secret now

/-! ## `slugify` (`src/lib/utils.ts`, via `generateSlug` in
`examples/database-operations.ts`): `title.toLowerCase()
.replace(/[^a-z0-9]+/g, '-').replace(/^-|-$/g, '')`. -/

/-- A character the regex class `[a-z0-9]` accepts (after lowercasing). -/
def isSlugChar (c : Char) : Bool :=
  ('a' ≤ c && c ≤ 'z') || ('0' ≤ c && c ≤ '9')

/-- `.replace(/[^a-z0-9]+/g, '-')`: each maximal run of characters outside
`[a-z0-9]` becomes one hyphen.  `inRun` records whether the previous character
belonged to such a run. -/
def collapseNonAlnum : List Char → Bool → List Char
  | [], _ => []
  | c :: cs, inRun =>
    if isSlugChar c then c :: collapseNonAlnum cs false
    else if inRun then collapseNonAlnum cs true
    else '-' :: collapseNonAlnum cs true

/-- `.replace(/^-|-$/g, '')`, leading half: the anchor `^` matches at most one
leading hyphen. -/
def dropLeadingHyphen : List Char → List Char
  | '-' :: cs => cs
  | cs => cs

/-- `.replace(/^-|-$/g, '')`, trailing half: the anchor `$` matches at most
one trailing hyphen. -/
def dropTrailingHyphen (cs : List Char) : List Char :=
  (dropLeadingHyphen cs.reverse).reverse

/-- `slugify` from `src/lib/utils.ts` (reconstructed from the identical
`generateSlug` in `examples/database-operations.ts` and pinned by
`tests/lib/utils.test.ts`). -/
def slugify (title : String) : String :=
  String.mk (dropTrailingHyphen (dropLeadingHyphen
    (collapseNonAlnum (title.data.map Char.toLower) false)))

/-! ## Rows (`src/db/schema.ts`) -/

/-- A `users` row.  Timestamps are the ISO strings SQLite stores. -/
structure User where
  id : Nat
  email : String
  name : String
  passwordHash : BcryptDigest
  role : String
  createdAt : String
  updatedAt : String
  deriving Repr, DecidableEq

/-- `SafeUser = Omit<User, 'passwordHash'>` from
`src/services/user-service.ts`. -/
structure SafeUser where
  id : Nat
  email : String
  name : String
  role : String
  createdAt : String
  updatedAt : String
  deriving Repr, DecidableEq

/-- `omitPassword` from `src/services/user-service.ts`: destructure away
`passwordHash`, keep the rest. -/
def omitPassword (u : User) : SafeUser :=
  { id := u.id, email := u.email, name := u.name, role := u.role
    createdAt := u.createdAt, updatedAt := u.updatedAt }

/-- A `posts` row. -/
structure Post where
  id : Nat
  title : String
  slug : String
  content : String
  excerpt : Option String
  published : Bool
  authorId : Nat
  createdAt : String
  updatedAt : String
  deriving Repr, DecidableEq

/-- The SQLite database: both tables plus the autoincrement counters. -/
structure Store where
  users : List User
  posts : List Post
  nextUserId : Nat
  nextPostId : Nat
  deriving Repr, DecidableEq

/-! ## `UserService` (`src/services/user-service.ts`)

Each operation takes the store it runs against; mutating operations also
return the store after the call.  `salt` is the randomness `hashPassword`
draws, `now` the wall-clock ISO timestamp. -/

namespace UserService

/-- The `select … where eq(users.id, id) … .get()` query. -/
def findUser (s : Store) (id : Nat) : Option User :=
  s.users.find? (fun u => u.id == id)

/-- `findAll`: every row through `omitPassword`. -/
def findAll (s : Store) : List SafeUser :=
  s.users.map omitPassword

/-- `findById`: safe view, `NotFoundError('User', id)` if absent. -/
def findById (s : Store) (id : Nat) : Except AppError SafeUser :=
  match findUser s id with
  | none => .error (NotFoundError "User" (some id))
  | some u => .ok (omitPassword u)

/-- `findByEmail`: the full row, hash included, `undefined` when absent. -/
def findByEmail (s : Store) (email : String) : Option User :=
  s.users.find? (fun u => u.email == email)

/-- The argument of `UserService.create`. -/
structure CreateUserData where
  email : String
  name : String
  password : String
  deriving Repr, DecidableEq

/-- `create`: `ConflictError` when `findByEmail` hits, else insert one row
with hashed password and the schema default role `'user'`, and return its
safe view. -/
def create (s : Store) (data : CreateUserData) (salt : Nat) (now : String) :
    Except AppError SafeUser × Store :=
  match findByEmail s data.email with
  | some _ => (.error (ConflictError "Email already registered"), s)
  | none =>
    let u : User :=
      { id := s.nextUserId, email := data.email, name := data.name
        passwordHash := hashPassword salt data.password, role := "user"
        createdAt := now, updatedAt := now }
    (.ok (omitPassword u),
     { s with users := s.users ++ [u], nextUserId := s.nextUserId + 1 })

/-- The argument of `UserService.update`:
`Partial<Pick<User, 'name' | 'email'>>`. -/
structure UpdateUserData where
  name : Option String := none
  email : Option String := none
  deriving Repr, DecidableEq

/-- `update`: `findById` throws `NotFoundError` first, then
`set({...data, updatedAt}) where id`. -/
def update (s : Store) (id : Nat) (data : UpdateUserData) (now : String) :
    Except AppError SafeUser × Store :=
  match findUser s id with
  | none => (.error (NotFoundError "User" (some id)), s)
  | some u =>
    let u' : User :=
      { u with name := data.name.getD u.name, email := data.email.getD u.email
               updatedAt := now }
    (.ok (omitPassword u'),
     { s with users := s.users.map (fun v => if v.id == id then u' else v) })

/-- `delete`: `findById` throws `NotFoundError` first, then delete the row;
the schema's `ON DELETE CASCADE` on `posts.author_id` (with
`foreign_keys = ON`) removes the user's posts. -/
def delete (s : Store) (id : Nat) : Except AppError Unit × Store :=
  match findUser s id with
  | none => (.error (NotFoundError "User" (some id)), s)
  | some _ =>
    (.ok (),
     { s with users := s.users.filter (fun v => !(v.id == id))
              posts := s.posts.filter (fun p => !(p.authorId == id)) })

end UserService

/-! ## `PostService` (`src/src/middleware.ts`, second compilation unit) -/

namespace PostService

/-- The `select … where eq(posts.id, id) … .get()` query. -/
def findPost (s : Store) (id : Nat) : Option Post :=
  s.posts.find? (fun p => p.id == id)

/-- `findPublished`: rows with `published = true`, storage order. -/
def findPublished (s : Store) : List Post :=
  s.posts.filter (fun p => p.published)

/-- `findByAuthor`: all rows owned by `authorId`. -/
def findByAuthor (s : Store) (authorId : Nat) : List Post :=
  s.posts.filter (fun p => p.authorId == authorId)

/-- `findById`: `NotFoundError('Post', id)` if absent. -/
def findById (s : Store) (id : Nat) : Except AppError Post :=
  match findPost s id with
  | none => .error (NotFoundError "Post" (some id))
  | some p => .ok p

/-- `findBySlug`: `NotFoundError('Post')` if absent. -/
def findBySlug (s : Store) (slug : String) : Except AppError Post :=
  match s.posts.find? (fun p => p.slug == slug) with
  | none => .error (NotFoundError "Post" none)
  | some p => .ok p

/-- The argument of `PostService.create`. -/
structure CreatePostData where
  title : String
  content : String
  excerpt : Option String := none
  published : Option Bool := none
  authorId : Nat
  deriving Repr, DecidableEq

/-- `create`: slug computed from the title, `excerpt: data.excerpt || null`
(so an empty string becomes `null`), `published: data.published ?? false`,
then insert one row. -/
def create (s : Store) (data : CreatePostData) (now : String) :
    Except AppError Post × Store :=
  let p : Post :=
    { id := s.nextPostId, title := data.title, slug := slugify data.title
      content := data.content
      excerpt :=
        match data.excerpt with
        | some e => if e == "" then none else some e
        | none => none
      published := data.published.getD false
      authorId := data.authorId, createdAt := now, updatedAt := now }
  (.ok p, { s with posts := s.posts ++ [p], nextPostId := s.nextPostId + 1 })

/-- The argument of `PostService.update`:
`Partial<{title; content; excerpt; published}>`. -/
structure UpdatePostData where
  title : Option String := none
  content : Option String := none
  excerpt : Option String := none
  published : Option Bool := none
  deriving Repr, DecidableEq

/-- The row `update … set({...data, updatedAt, slug?})` writes: spread the
present fields, stamp `updatedAt`, and recompute the slug only under the JS
truthiness test `if (data.title)` — absent or empty titles leave the slug
alone. -/
def applyUpdate (post : Post) (data : UpdatePostData) (now : String) : Post :=
  { post with
    title := data.title.getD post.title
    content := data.content.getD post.content
    excerpt :=
      match data.excerpt with
      | some e => some e
      | none => post.excerpt
    published := data.published.getD post.published
    slug :=
      match data.title with
      | some t => if t == "" then post.slug else slugify t
      | none => post.slug
    updatedAt := now }

/-- `update`: `findById` (throws `NotFoundError`), then the ownership check
(throws `ForbiddenError('Not the post owner')`), then write. -/
def update (s : Store) (id authorId : Nat) (data : UpdatePostData) (now : String) :
    Except AppError Post × Store :=
  match findPost s id with
  | none => (.error (NotFoundError "Post" (some id)), s)
  | some post =>
    if post.authorId == authorId then
      let updated := applyUpdate post data now
      (.ok updated,
       { s with posts := s.posts.map (fun q => if q.id == id then updated else q) })
    else (.error (ForbiddenError "Not the post owner"), s)

/-- `delete`: the same `findById`-then-ownership gate, then delete the row. -/
def delete (s : Store) (id authorId : Nat) : Except AppError Unit × Store :=
  match findPost s id with
  | none => (.error (NotFoundError "Post" (some id)), s)
  | some post =>
    if post.authorId == authorId then
      (.ok (), { s with posts := s.posts.filter (fun q => !(q.id == id)) })
    else (.error (ForbiddenError "Not the post owner"), s)

end PostService

/-! ## Shared concrete fixtures -/

/-- A post owned by user 7, used as a concrete row in several scenarios. -/
def post0 : Post :=
  { id := 1, title := "Original", slug := "original", content := "c"
    excerpt := none, published := false, authorId := 7
    createdAt := "t0", updatedAt := "t0" }

/-- A one-post store owned by user 7. -/
def store0 : Store :=
  { users := [], posts := [post0], nextUserId := 1, nextPostId := 2 }

/-- A concrete user row. -/
def user0 : User :=
  { id := 7, email := "author@test.com", name := "Author"
    passwordHash := hashPassword 3 "password123", role := "user"
    createdAt := "t0", updatedAt := "t0" }

/-- A one-user, one-post store. -/
def store1 : Store :=
  { users := [user0], posts := [post0], nextUserId := 8, nextPostId := 2 }

/-! ## Claims -/

/-- **C5**. For every valid password `p`, verifying `p` against the digest
produced by hashing `p` returns true: `verifyPassword(p, hashPassword(p)) ==
true` (for any salt the hashing call draws). -/
theorem C5_verify_of_hash (p : String) (salt : Nat) :
    verifyPassword p (hashPassword salt p) = true := by
  simp [verifyPassword, hashPassword, compareSync, hashSync]

/-- **C6**. Two calls to `hashPassword` on the same plaintext draw different
random salts and then produce different digests, so the digest is not a
deterministic function of the plaintext alone. -/
theorem C6_salted_hash_differs (p : String) (salt₁ salt₂ : Nat) (h : salt₁ ≠ salt₂) :
    hashPassword salt₁ p ≠ hashPassword salt₂ p := by
  simp [hashPassword, hashSync]
  intro hc
  exact absurd hc h

theorem C6_salted_hash_differs_witness :
    (0 : Nat) ≠ 1 ∧ hashPassword 0 "mypassword" ≠ hashPassword 1 "mypassword" :=
  ⟨by decide, C6_salted_hash_differs "mypassword" 0 1 (by decide)⟩

/-- **C3**. Verifying a token freshly issued for a claim `c`, with the same
secret and before the stamped expiry `now + expiresIn` elapses, succeeds and
returns exactly `c`. -/
theorem C3_token_roundtrip (secret : String) (c : JwtPayload)
    (now expiresIn clock : Nat) (h : clock < now + expiresIn) :
    verifyToken secret clock (generateToken secret now expiresIn c) = .ok c := by
  simp [verifyToken, generateToken, jwtSign, jwtVerify, Nat.not_le.mpr h]

theorem C3_token_roundtrip_witness :
    (5 : Nat) < 0 + 604800 ∧
      verifyToken "dev-secret-change-in-production" 5
        (generateToken "dev-secret-change-in-production" 0 604800
          ⟨1, "test@test.com", "user"⟩) = .ok ⟨1, "test@test.com", "user"⟩ :=
  ⟨by decide,
   C3_token_roundtrip "dev-secret-change-in-production" ⟨1, "test@test.com", "user"⟩
     0 604800 5 (by decide)⟩

/-- **C8**. `PostService.create` stores `slugify` of the title — the
deterministic lowercase / collapse-non-alphanumeric-runs / trim-hyphens
derivation — and on the two concrete titles the derivation yields the slugs
the spec names. -/
theorem C8_create_derives_slug (s : Store) (data : PostService.CreatePostData)
    (now : String) :
    (∃ p : Post,
       PostService.create s data now =
         (.ok p, { s with posts := s.posts ++ [p], nextPostId := s.nextPostId + 1 }) ∧
       p.slug = slugify data.title ∧ p.title = data.title) ∧
    slugify "Hello World" = "hello-world" ∧
    slugify "Hello & World! 2024" = "hello-world-2024" := by
  refine ⟨⟨_, rfl, rfl, rfl⟩, by decide, by decide⟩

/-- **C4 counterexample**. Two failing verifications — a malformed token and
an expired one — produce two *different* error values, and they are
`jsonwebtoken` library errors, not the 401/`UNAUTHORIZED` taxonomy value: the
claim's single `UNAUTHENTICATED` failure kind is refuted at these inputs. -/
theorem C4_counterexample :
    verifyToken "s" 100 (.malformed "xx") =
      .error (.jsonWebTokenError "jwt malformed") ∧
    verifyToken "s" 100 (.signed ⟨1, "a@b.c", "user"⟩ 50 "s") =
      .error (.tokenExpiredError 50) ∧
    JwtError.jsonWebTokenError "jwt malformed" ≠ JwtError.tokenExpiredError 50 :=
  ⟨rfl, rfl, by decide⟩

/-- **C4 amended**. On every failing input — malformed token, wrong signing
secret, or elapsed expiry — `verifyToken` fails, but by propagating the
`jsonwebtoken` library's own errors (`JsonWebTokenError` for the first two
root causes, `TokenExpiredError` for the third), not the Error Taxonomy's
401/`UNAUTHORIZED` value. -/
theorem C4_amended_library_errors (secret tokenSecret raw : String)
    (c : JwtPayload) (exp now : Nat) :
    verifyToken secret now (.malformed raw) =
        .error (.jsonWebTokenError "jwt malformed") ∧
    (tokenSecret ≠ secret →
       verifyToken secret now (.signed c exp tokenSecret) =
         .error (.jsonWebTokenError "invalid signature")) ∧
    (exp ≤ now →
       verifyToken secret now (.signed c exp secret) =
         .error (.tokenExpiredError exp)) := by
  refine ⟨rfl, fun h => ?_, fun h => ?_⟩ <;> simp [verifyToken, jwtVerify, h]

theorem C4_amended_library_errors_witness :
    ("x" : String) ≠ "s" ∧ (50 : Nat) ≤ 100 ∧
    verifyToken "s" 100 (.malformed "zz") =
      .error (.jsonWebTokenError "jwt malformed") ∧
    verifyToken "s" 100 (.signed ⟨1, "a@b.c", "user"⟩ 50 "x") =
      .error (.jsonWebTokenError "invalid signature") ∧
    verifyToken "s" 100 (.signed ⟨1, "a@b.c", "user"⟩ 50 "s") =
      .error (.tokenExpiredError 50) := by
  obtain ⟨h1, h2, h3⟩ :=
    C4_amended_library_errors "s" "x" "zz" ⟨1, "a@b.c", "user"⟩ 50 100
  exact ⟨by decide, by decide, h1, h2 (by decide), h3 (by decide)⟩

/-- After a `where id` write replaces every matching row by `repl`, looking
the id up again finds `repl` (the replacement itself matches the filter). -/
theorem find?_map_replace {α : Type} (p : α → Bool) (repl : α) (l : List α)
    (a : α) (h : l.find? p = some a) (hrepl : p repl = true) :
    (l.map (fun x => if p x then repl else x)).find? p = some repl := by
  induction l with
  | nil => exact absurd h (by simp)
  | cons x xs ih =>
    simp only [List.map_cons]
    by_cases hx : p x
    · rw [if_pos hx]
      exact List.find?_cons_of_pos _ hrepl
    · rw [if_neg hx, List.find?_cons_of_neg _ hx]
      rw [List.find?_cons_of_neg _ hx] at h
      exact ih h

/-- **C9 counterexample**. An owner update whose partial-fields argument
contains the title `""` succeeds, stores the new title, but leaves the slug
`"original"` — which differs from `slugify "" = ""`, the slug derived from
the new title: the JS truthiness test `if (data.title)` skips recomputation
for an empty title. -/
theorem C9_counterexample :
    (PostService.update store0 1 7 { title := some "" } "t1").1 =
      .ok { id := 1, title := "", slug := "original", content := "c"
            excerpt := none, published := false, authorId := 7
            createdAt := "t0", updatedAt := "t1" } ∧
    slugify "" = "" ∧ ("original" : String) ≠ "" :=
  ⟨rfl, rfl, by decide⟩

/-- **C9 amended**. For every owner update whose argument contains a
*non-empty* title `t`, the returned and stored row carries slug `slugify t`;
when the argument has no title field — or an empty-string title — the slug is
unchanged. -/
theorem C9_amended_slug_recompute (s : Store) (id acting : Nat) (post : Post)
    (data : PostService.UpdatePostData) (now : String)
    (hfind : PostService.findPost s id = some post)
    (hown : post.authorId = acting) :
    (PostService.update s id acting data now).1 =
        .ok (PostService.applyUpdate post data now) ∧
    PostService.findPost (PostService.update s id acting data now).2 id =
        some (PostService.applyUpdate post data now) ∧
    (∀ t, data.title = some t → t ≠ "" →
       (PostService.applyUpdate post data now).slug = slugify t) ∧
    (data.title = none ∨ data.title = some "" →
       (PostService.applyUpdate post data now).slug = post.slug) := by
  have hfind' : s.posts.find? (fun q => q.id == id) = some post := hfind
  have hid : (post.id == id) = true := by
    have := List.find?_some hfind'
    simpa using this
  have hok : (post.authorId == acting) = true := by simp [hown]
  refine ⟨?_, ?_, ?_, ?_⟩
  · simp [PostService.update, hfind, hok]
  · simp only [PostService.update, hfind, hok, if_true]
    exact find?_map_replace _ _ _ post hfind hid
  · intro t ht hne
    simp [PostService.applyUpdate, ht, hne]
  · rintro (ht | ht) <;> simp [PostService.applyUpdate, ht]

theorem C9_amended_slug_recompute_witness :
    PostService.findPost store0 1 = some post0 ∧ post0.authorId = 7 ∧
    PostService.UpdatePostData.title { title := some "New" } = some "New" ∧
    ("New" : String) ≠ "" ∧
    (PostService.update store0 1 7 { title := some "New" } "t1").1 =
      .ok (PostService.applyUpdate post0 { title := some "New" } "t1") ∧
    (PostService.applyUpdate post0 { title := some "New" } "t1").slug =
      slugify "New" ∧
    slugify "New" = "new" ∧
    PostService.findPost (PostService.update store0 1 7 { title := some "New" } "t1").2 1 =
      some (PostService.applyUpdate post0 { title := some "New" } "t1") ∧
    (PostService.applyUpdate post0 ({} : PostService.UpdatePostData) "t1").slug =
      post0.slug := by
  obtain ⟨e1, e2, e3, _⟩ :=
    C9_amended_slug_recompute store0 1 7 post0 { title := some "New" } "t1" rfl rfl
  obtain ⟨_, _, _, e4⟩ :=
    C9_amended_slug_recompute store0 1 7 post0 ({} : PostService.UpdatePostData) "t1" rfl rfl
  exact ⟨rfl, rfl, rfl, by decide, e1, e3 "New" rfl (by decide), by decide, e2,
    e4 (Or.inl rfl)⟩

/-- **C1**. For `PostService.update` and `PostService.delete`: a missing id
fails `NotFound` (and never `Forbidden` — the load runs before the ownership
check); an existing post owned by someone else fails
`ForbiddenError('Not the post owner')`; and when the post exists and the
acting user owns it, the mutation proceeds. -/
theorem C1_ownership_gate (s : Store) (id acting : Nat)
    (data : PostService.UpdatePostData) (now : String) :
    (PostService.findPost s id = none →
       (PostService.update s id acting data now).1 =
           .error (NotFoundError "Post" (some id)) ∧
       (PostService.delete s id acting).1 = .error (NotFoundError "Post" (some id)) ∧
       (∀ m, (PostService.update s id acting data now).1 ≠ .error (ForbiddenError m)) ∧
       (∀ m, (PostService.delete s id acting).1 ≠ .error (ForbiddenError m))) ∧
    (∀ post, PostService.findPost s id = some post → post.authorId ≠ acting →
       (PostService.update s id acting data now).1 =
           .error (ForbiddenError "Not the post owner") ∧
       (PostService.delete s id acting).1 =
           .error (ForbiddenError "Not the post owner")) ∧
    (∀ post, PostService.findPost s id = some post → post.authorId = acting →
       (PostService.update s id acting data now).1 =
           .ok (PostService.applyUpdate post data now) ∧
       (PostService.delete s id acting).1 = .ok ()) := by
  refine ⟨fun hnone => ?_, fun post hsome hne => ?_, fun post hsome heq => ?_⟩
  · refine ⟨?_, ?_, ?_, ?_⟩ <;>
      simp [PostService.update, PostService.delete, hnone, NotFoundError,
        ForbiddenError]
  · have hbeq : (post.authorId == acting) = false := by simp [hne]
    constructor <;> simp [PostService.update, PostService.delete, hsome, hbeq]
  · have hbeq : (post.authorId == acting) = true := by simp [heq]
    constructor <;> simp [PostService.update, PostService.delete, hsome, hbeq]

theorem C1_ownership_gate_witness :
    PostService.findPost store0 2 = none ∧
    (PostService.update store0 2 9 {} "t1").1 =
      .error (NotFoundError "Post" (some 2)) ∧
    (PostService.delete store0 2 9).1 = .error (NotFoundError "Post" (some 2)) ∧
    (∀ m, (PostService.update store0 2 9 {} "t1").1 ≠ .error (ForbiddenError m)) ∧
    PostService.findPost store0 1 = some post0 ∧ post0.authorId ≠ 9 ∧
    (PostService.update store0 1 9 {} "t1").1 =
      .error (ForbiddenError "Not the post owner") ∧
    (PostService.delete store0 1 9).1 =
      .error (ForbiddenError "Not the post owner") ∧
    post0.authorId = 7 ∧
    (PostService.update store0 1 7 {} "t1").1 =
      .ok (PostService.applyUpdate post0 {} "t1") ∧
    (PostService.delete store0 1 7).1 = .ok () := by
  obtain ⟨m1, m2, m3, _⟩ := (C1_ownership_gate store0 2 9 {} "t1").1 rfl
  obtain ⟨f1, f2⟩ :=
    (C1_ownership_gate store0 1 9 {} "t1").2.1 post0 rfl (by decide)
  obtain ⟨o1, o2⟩ := (C1_ownership_gate store0 1 7 {} "t1").2.2 post0 rfl rfl
  exact ⟨rfl, m1, m2, m3, rfl, by decide, f1, f2, rfl, o1, o2⟩

/-- **C10**. Whenever `PostService.update`/`delete` or
`UserService.update`/`delete` fails, the store after the call is exactly the
store before it: the throw happens before any write. -/
theorem C10_failure_atomicity (s : Store) (id acting : Nat)
    (pdata : PostService.UpdatePostData) (udata : UserService.UpdateUserData)
    (now : String) :
    (∀ e, (PostService.update s id acting pdata now).1 = .error e →
       (PostService.update s id acting pdata now).2 = s) ∧
    (∀ e, (PostService.delete s id acting).1 = .error e →
       (PostService.delete s id acting).2 = s) ∧
    (∀ e, (UserService.update s id udata now).1 = .error e →
       (UserService.update s id udata now).2 = s) ∧
    (∀ e, (UserService.delete s id).1 = .error e →
       (UserService.delete s id).2 = s) := by
  refine ⟨fun e he => ?_, fun e he => ?_, fun e he => ?_, fun e he => ?_⟩
  · cases hf : PostService.findPost s id with
    | none => simp [PostService.update, hf]
    | some post =>
      by_cases ho : (post.authorId == acting) = true
      · simp [PostService.update, hf, ho] at he
      · simp [PostService.update, hf, Bool.of_not_eq_true ho]
  · cases hf : PostService.findPost s id with
    | none => simp [PostService.delete, hf]
    | some post =>
      by_cases ho : (post.authorId == acting) = true
      · simp [PostService.delete, hf, ho] at he
      · simp [PostService.delete, hf, Bool.of_not_eq_true ho]
  · cases hf : UserService.findUser s id with
    | none => simp [UserService.update, hf]
    | some u => simp [UserService.update, hf] at he
  · cases hf : UserService.findUser s id with
    | none => simp [UserService.delete, hf]
    | some u => simp [UserService.delete, hf] at he

theorem C10_failure_atomicity_witness :
    (PostService.update store0 2 9 {} "t1").1 =
      .error (NotFoundError "Post" (some 2)) ∧
    (PostService.update store0 2 9 {} "t1").2 = store0 ∧
    (PostService.update store0 1 9 {} "t1").2 = store0 ∧
    (PostService.delete store0 2 9).2 = store0 ∧
    (UserService.update store0 2 {} "t1").2 = store0 ∧
    (UserService.delete store0 2).2 = store0 := by
  have h1 := C10_failure_atomicity store0 2 9 {} {} "t1"
  have h2 := C10_failure_atomicity store0 1 9 {} {} "t1"
  exact ⟨rfl, h1.1 (NotFoundError "Post" (some 2)) rfl,
    h2.1 (ForbiddenError "Not the post owner") rfl,
    h1.2.1 (NotFoundError "Post" (some 2)) rfl,
    h1.2.2.1 (NotFoundError "User" (some 2)) rfl,
    h1.2.2.2 (NotFoundError "User" (some 2)) rfl⟩

/-- **C7**. `UserService.create` fails `ConflictError` exactly when a stored
user carries exactly the requested email (case-sensitive string equality),
and otherwise persists one new row with the default role `'user'` and returns
its safe view. -/
theorem C7_create_email_conflict (s : Store) (data : UserService.CreateUserData)
    (salt : Nat) (now : String) :
    ((∃ u ∈ s.users, u.email = data.email) →
       UserService.create s data salt now =
         (.error (ConflictError "Email already registered"), s)) ∧
    ((∀ u ∈ s.users, u.email ≠ data.email) →
       ∃ newUser : User,
         UserService.create s data salt now =
           (.ok (omitPassword newUser),
            { s with users := s.users ++ [newUser]
                     nextUserId := s.nextUserId + 1 }) ∧
         newUser.role = "user" ∧ newUser.email = data.email ∧
         newUser.name = data.name ∧ newUser.id = s.nextUserId ∧
         newUser.passwordHash = hashPassword salt data.password) := by
  constructor
  · rintro ⟨u, hu, he⟩
    have hsome : (UserService.findByEmail s data.email).isSome := by
      simp only [UserService.findByEmail, List.find?_isSome]
      exact ⟨u, hu, by simp [he]⟩
    obtain ⟨v, hv⟩ := Option.isSome_iff_exists.mp hsome
    simp [UserService.create, hv]
  · intro h
    have hnone : UserService.findByEmail s data.email = none := by
      simp only [UserService.findByEmail, List.find?_eq_none]
      intro u hu
      simpa using h u hu
    refine ⟨{ id := s.nextUserId, email := data.email, name := data.name
              passwordHash := hashPassword salt data.password, role := "user"
              createdAt := now, updatedAt := now },
            ?_, rfl, rfl, rfl, rfl, rfl⟩
    simp [UserService.create, hnone]

theorem C7_create_email_conflict_witness :
    (∃ u ∈ store1.users, u.email = "author@test.com") ∧
    UserService.create store1 ⟨"author@test.com", "Dup", "pw12345678"⟩ 4 "t1" =
      (.error (ConflictError "Email already registered"), store1) ∧
    (∀ u ∈ store1.users, u.email ≠ "Author@Test.com") ∧
    (∃ newUser : User,
       UserService.create store1 ⟨"Author@Test.com", "Dup", "pw12345678"⟩ 4 "t1" =
         (.ok (omitPassword newUser),
          { store1 with users := store1.users ++ [newUser]
                        nextUserId := store1.nextUserId + 1 }) ∧
       newUser.role = "user" ∧ newUser.email = "Author@Test.com" ∧
       newUser.name = "Dup" ∧ newUser.id = store1.nextUserId ∧
       newUser.passwordHash = hashPassword 4 "pw12345678") := by
  refine ⟨⟨user0, by simp [store1], rfl⟩, ?_, ?_, ?_⟩
  · exact (C7_create_email_conflict store1 ⟨"author@test.com", "Dup", "pw12345678"⟩
      4 "t1").1 ⟨user0, by simp [store1], rfl⟩
  · intro u hu
    simp only [store1, List.mem_singleton] at hu
    subst hu
    decide
  · refine (C7_create_email_conflict store1 ⟨"Author@Test.com", "Dup", "pw12345678"⟩
      4 "t1").2 ?_
    intro u hu
    simp only [store1, List.mem_singleton] at hu
    subst hu
    decide

/-- Replace every stored user's password hash (leaving every other column
alone): the probe used to show the safe views do not depend on the hash. -/
def setHashes (f : Nat → BcryptDigest) (s : Store) : Store :=
  { s with users := s.users.map (fun u => { u with passwordHash := f u.id }) }

theorem findUser_setHashes (f : Nat → BcryptDigest) (s : Store) (id : Nat) :
    UserService.findUser (setHashes f s) id =
      (UserService.findUser s id).map (fun u => { u with passwordHash := f u.id }) := by
  simp only [UserService.findUser, setHashes, List.find?_map]
  rfl

theorem findByEmail_setHashes (f : Nat → BcryptDigest) (s : Store) (email : String) :
    UserService.findByEmail (setHashes f s) email =
      (UserService.findByEmail s email).map
        (fun u => { u with passwordHash := f u.id }) := by
  simp only [UserService.findByEmail, setHashes, List.find?_map]
  rfl

/-- **C2**. The values `findAll`, `findById`, `create` and `update` return are
unchanged when every stored password hash is replaced — their outputs carry no
hash — while `findByEmail` returns the full stored row: it always yields a
stored record (hash included) and its output does change under rehashing. -/
theorem C2_safe_view (s : Store) (f : Nat → BcryptDigest) :
    UserService.findAll (setHashes f s) = UserService.findAll s ∧
    (∀ id, UserService.findById (setHashes f s) id = UserService.findById s id) ∧
    (∀ data salt now,
       (UserService.create (setHashes f s) data salt now).1 =
         (UserService.create s data salt now).1) ∧
    (∀ id data now,
       (UserService.update (setHashes f s) id data now).1 =
         (UserService.update s id data now).1) ∧
    (∀ u ∈ s.users, ∃ u', UserService.findByEmail s u.email = some u' ∧
       u' ∈ s.users) ∧
    (∃ (s' : Store) (g : Nat → BcryptDigest) (email : String),
       UserService.findByEmail (setHashes g s') email ≠
         UserService.findByEmail s' email) := by
  refine ⟨?_, ?_, ?_, ?_, ?_, ?_⟩
  · simp only [UserService.findAll, setHashes, List.map_map]
    rfl
  · intro id
    rw [UserService.findById, UserService.findById, findUser_setHashes]
    cases UserService.findUser s id <;> rfl
  · intro data salt now
    rw [UserService.create, UserService.create, findByEmail_setHashes]
    cases UserService.findByEmail s data.email <;> rfl
  · intro id data now
    rw [UserService.update, UserService.update, findUser_setHashes]
    cases UserService.findUser s id <;> rfl
  · intro u hu
    have hsome : (UserService.findByEmail s u.email).isSome := by
      simp only [UserService.findByEmail, List.find?_isSome]
      exact ⟨u, hu, by simp⟩
    obtain ⟨v, hv⟩ := Option.isSome_iff_exists.mp hsome
    exact ⟨v, hv, List.mem_of_find?_eq_some hv⟩
  · refine ⟨store1, fun _ => hashPassword 4 "other", "author@test.com", ?_⟩
    decide

theorem C2_safe_view_witness :
    user0 ∈ store1.users ∧
    (∃ u', UserService.findByEmail store1 user0.email = some u' ∧
       u' ∈ store1.users) :=
  ⟨by simp [store1],
   (C2_safe_view store1 (fun _ => hashPassword 0 "x")).2.2.2.2.1 user0
     (by simp [store1])⟩

end DcyfrAiWeb
